import Mathlib

/-!
# Verification of the stable-center-backend non-custodial swap protocol

Shallow embedding of the core of `stable-center-backend`:
`src/lib/auth-utils.ts` (authorization message, signature verification,
timestamp validation, preparation hash, prepared-order store),
`src/1inch_fusion_order/createOrder.ts` (order creation, hash-lock
construction, completion monitor), and the HTTP handlers of
`src/apis/swap.ts` (`prepare-order`, `submit-signed-order`).

JavaScript machine integers are modelled as `Int`/`Nat`, byte arrays as
`List Nat`, optional/`undefined` values as `Option`, thrown exceptions as
`Except`, and the upstream 1inch network as an explicit environment whose
calls are recorded in an event trace.
-/

namespace StableCenter

/-- JS truthiness coercion of an optional string (`s || "Default"` in
`generateSwapMessage`): `undefined` and the empty string are falsy. -/
def jsStrOr (s : Option String) (d : String) : String :=
  match s with
  | none => d
  | some v => if v = "" then d else v

/-- Order parameters, `orderParams` in `src/lib/auth-utils.ts`
(`SignedOrderRequest.orderParams`): amount as decimal string, chain ids,
optional token addresses. -/
structure OrderParams where
  amount : String
  srcChainId : Int
  dstChainId : Int
  srcTokenAddress : Option String := none
  dstTokenAddress : Option String := none
deriving Repr, DecidableEq

/-- `generateSwapMessage` from `src/lib/auth-utils.ts` lines 34-63: the
newline-joined plaintext authorization message. -/
def generateSwapMessage (userWalletAddress : String) (orderParams : OrderParams)
    (timestamp : Int) (nonce : String) : String :=
  String.intercalate "\n" [
    "StableCenter Cross-Chain Swap Authorization",
    "",
    "Wallet: " ++ userWalletAddress,
    "Amount: " ++ orderParams.amount,
    "Source Chain: " ++ toString orderParams.srcChainId,
    "Destination Chain: " ++ toString orderParams.dstChainId,
    "Source Token: " ++ jsStrOr orderParams.srcTokenAddress "Default",
    "Destination Token: " ++ jsStrOr orderParams.dstTokenAddress "Default",
    "Timestamp: " ++ toString timestamp,
    "Nonce: " ++ nonce,
    "",
    "By signing this message, you authorize StableCenter to create a cross-chain swap order on your behalf.",
    "This signature does not grant access to your funds."]

/-- `.toLowerCase()` on an address string: character-wise lower-casing
(addresses are ASCII, where JS `toLowerCase` and `Char.toLower`
agree). -/
def jsToLower (s : String) : String :=
  String.mk (s.data.map Char.toLower)

/-- `verifyUserSignature` from `src/lib/auth-utils.ts` lines 69-92.
`recover` models `ethers.verifyMessage` (external library): it returns the
address recovered from the signature, or `none` when recovery throws, in
which case the `catch` branch returns `false`.  The recovered address is
compared case-insensitively with the expected one. -/
def verifyUserSignature (recover : String → String → Option String)
    (message signature expectedWalletAddress : String) : Bool :=
  match recover message signature with
  | some recoveredAddress =>
      jsToLower recoveredAddress == jsToLower expectedWalletAddress
  | none => false

/-! ## JSON serialization and `createOrderPreparationHash`

`createOrderPreparationHash` (lines 123-138 of `src/lib/auth-utils.ts`)
computes `JSON.stringify(data, Object.keys(data).sort())` and hashes the
string with SHA-256.  We embed `JSON.stringify` with a *replacer array*
faithfully to ECMA-262 `SerializeJSONObject`: when a property list is
given, every non-array object — at every nesting depth — serializes only
the keys from that list, in list order. -/

mutual
/-- A fragment of the JSON value grammar sufficient for the hashed
`data` object (strings, integer numbers, nested objects). -/
inductive Json where
  | str (s : String)
  | num (n : Int)
  | obj (fields : JsonFields)
deriving Repr

/-- The field list of a JSON object (a mutual inductive rather than a
nested `List` so that the serializers below are structurally
recursive). -/
inductive JsonFields where
  | nil
  | cons (key : String) (value : Json) (rest : JsonFields)
deriving Repr
end

/-- Build a field list. -/
def JsonFields.ofList : List (String × Json) → JsonFields
  | [] => .nil
  | (k, v) :: rest => .cons k v (JsonFields.ofList rest)

/-- JSON string quoting (the hashed fields are plain hex/decimal strings;
the escapes cover the JSON-mandated characters that could occur). -/
def jsonQuote (s : String) : String :=
  "\"" ++ String.join (s.data.map fun c =>
    if c = '"' then "\\\""
    else if c = '\\' then "\\\\"
    else if c = '\n' then "\\n"
    else String.singleton c) ++ "\""

/-- Given the rendered fields of an object and the replacer property
list, keep exactly the listed keys, in list order — ECMA-262
`SerializeJSONObject` with a defined `PropertyList`. -/
def selectFields (keys : List String) (rendered : List (String × String)) :
    List String :=
  keys.filterMap fun k =>
    (rendered.lookup k).map fun v => jsonQuote k ++ ":" ++ v

mutual
/-- `JSON.stringify(v, keys)`: serialize `v`, filtering every object's
fields through the replacer array `keys`. -/
def serializeWith (keys : List String) : Json → String
  | .str s => jsonQuote s
  | .num n => toString n
  | .obj fields =>
      "\x7b" ++ String.intercalate "," (selectFields keys (serializeFieldsWith keys fields)) ++ "\x7d"

/-- Render each field value of an object (before replacer filtering). -/
def serializeFieldsWith (keys : List String) :
    JsonFields → List (String × String)
  | .nil => []
  | .cons k v rest => (k, serializeWith keys v) :: serializeFieldsWith keys rest
end

/-- Lexicographic comparison of character lists by code unit — the JS
default sort comparator on strings. -/
def charListLe : List Char → List Char → Bool
  | [], _ => true
  | _ :: _, [] => false
  | c :: cs, d :: ds =>
      if c.toNat < d.toNat then true
      else if d.toNat < c.toNat then false
      else charListLe cs ds

/-- String comparison by UTF-16 code units (all keys sorted here are
ASCII, where code-unit order and code-point order agree). -/
def strLe (a b : String) : Bool := charListLe a.data b.data

/-- Insert a string into a sorted list (helper for `sortKeys`). -/
def insertSorted (s : String) : List String → List String
  | [] => [s]
  | t :: ts => if strLe s t then s :: t :: ts else t :: insertSorted s ts

/-- `Array.prototype.sort()` on string keys: lexicographic insertion
sort (stable, matching the JS default comparator on ASCII keys). -/
def sortKeys : List String → List String
  | [] => []
  | k :: ks => insertSorted k (sortKeys ks)

/-- The JS object literal for `orderParams` as it is serialized inside
`createOrderPreparationHash`; `undefined` optional token addresses are
absent properties and are dropped by `JSON.stringify`. -/
def orderParamsJson (p : OrderParams) : Json :=
  .obj (JsonFields.ofList
    ([("amount", .str p.amount),
      ("srcChainId", .num p.srcChainId),
      ("dstChainId", .num p.dstChainId)]
    ++ (match p.srcTokenAddress with
        | some a => [("srcTokenAddress", Json.str a)]
        | none => [])
    ++ (match p.dstTokenAddress with
        | some a => [("dstTokenAddress", Json.str a)]
        | none => [])))

/-- The `data` object built by `createOrderPreparationHash`
(insertion order as in the source). -/
def prepDataJson (userWalletAddress : String) (orderParams : OrderParams)
    (timestamp : Int) (nonce : String) : Json :=
  .obj (JsonFields.ofList
    [("userWalletAddress", .str userWalletAddress),
     ("orderParams", orderParamsJson orderParams),
     ("timestamp", .num timestamp),
     ("nonce", .str nonce)])

/-- `Object.keys(data)` for the `data` object of
`createOrderPreparationHash`. -/
def prepDataKeys : List String :=
  ["userWalletAddress", "orderParams", "timestamp", "nonce"]

/-- `dataString` in `createOrderPreparationHash` (line 136):
`JSON.stringify(data, Object.keys(data).sort())`. -/
def prepDataString (userWalletAddress : String) (orderParams : OrderParams)
    (timestamp : Int) (nonce : String) : String :=
  serializeWith (sortKeys prepDataKeys)
    (prepDataJson userWalletAddress orderParams timestamp nonce)

/-- `createOrderPreparationHash` from `src/lib/auth-utils.ts` lines
123-138.  `sha256` models `crypto.createHash("sha256")...digest("hex")`
(external library); the function hashes `prepDataString`. -/
def createOrderPreparationHash (sha256 : String → String)
    (userWalletAddress : String) (orderParams : OrderParams)
    (timestamp : Int) (nonce : String) : String :=
  sha256 (prepDataString userWalletAddress orderParams timestamp nonce)

/-- The keys of a field list. -/
def JsonFields.keys : JsonFields → List String
  | .nil => []
  | .cons k _ rest => k :: JsonFields.keys rest

mutual
/-- Canonical JSON with *all* object keys sorted at every depth —
the serialization the specification describes
(`canonical-JSON({userWalletAddress, orderParams, timestamp, nonce})`
"with object keys sorted for determinism").  Stated for comparison with
`prepDataString`; translated from the spec's words, not the source. -/
def serializeSpecCanonical : Json → String
  | .str s => jsonQuote s
  | .num n => toString n
  | .obj fields =>
      "\x7b" ++ String.intercalate ","
        ((sortKeys fields.keys).filterMap fun k =>
          (serializeSpecFields fields).lookup k |>.map
            fun v => jsonQuote k ++ ":" ++ v) ++ "\x7d"

/-- Helper of `serializeSpecCanonical`: render each field canonically. -/
def serializeSpecFields : JsonFields → List (String × String)
  | .nil => []
  | .cons k v rest => (k, serializeSpecCanonical v) :: serializeSpecFields rest
end

/-- Milliseconds in 10 minutes, `maxAge` in `validateTimestamp`. -/
def maxAge : Int := 10 * 60 * 1000

/-- `validateTimestamp` from `src/lib/auth-utils.ts` lines 105-110.
`now` models `Date.now()` (epoch milliseconds). -/
def validateTimestamp (now timestamp : Int) : Bool :=
  (timestamp > now - maxAge) && (timestamp ≤ now + 60000)

/-! ## Prepared-order store

`src/lib/auth-utils.ts` lines 182-216: a module-level
`Map<string, PreparedOrderData>` plus, per `storePreparedOrder` call, a
`setTimeout` deleting the key 15 minutes later.  The store is modelled as
the map's entry list together with the list of pending deletion timers
`(key, fireAt)`; `fireTimers now` applies every timer due by `now`
(a timer with delay `d` scheduled at `t` fires once the clock reaches
`t + d`). -/

/-- The data the handlers place in `preparationData`
(`src/apis/swap.ts` lines 105-115).  `order` and `quoteId` are whatever
`orderResult` supplied (possibly absent, hence `Option`). -/
structure PreparationData where
  order : Option String := none
  quoteId : Option String := none
  secrets : List String := []
  secretHashes : List String := []
  srcChainId : Int := 0
  amount : String := ""
  srcTokenAddress : Option String := none
  dstTokenAddress : Option String := none
  dstChainId : Int := 0
deriving Repr, DecidableEq

/-- `PreparedOrderData` from `src/lib/auth-utils.ts` lines 22-28. -/
structure PreparedOrderData where
  orderHash : String
  userWalletAddress : String
  preparationData : PreparationData
  timestamp : Int
  nonce : String
deriving Repr, DecidableEq

/-- The prepared-order store: the `preparedOrders` map entries plus the
pending `setTimeout` deletions (key, absolute fire time in ms). -/
structure PreparedOrderStore where
  entries : List (String × PreparedOrderData) := []
  timers : List (String × Int) := []
deriving Repr, DecidableEq

/-- TTL of a stored preparation: 15 minutes in milliseconds
(`15 * 60 * 1000` at lines 196 and 223). -/
def prepTTL : Int := 15 * 60 * 1000

/-- `storePreparedOrder` (lines 190-197) executed at clock time `now`:
`Map.set` (replacing any previous entry for the key) plus scheduling an
unconditional deletion of the key `prepTTL` later. -/
def storePreparedOrder (preparationHash : String)
    (orderData : PreparedOrderData) (now : Int)
    (store : PreparedOrderStore) : PreparedOrderStore :=
  { entries := store.entries.filter (fun e => e.1 ≠ preparationHash)
      ++ [(preparationHash, orderData)],
    timers := store.timers ++ [(preparationHash, now + prepTTL)] }

/-- `consumePreparedOrder` (lines 202-209): return and delete the entry
when present, else return `null` leaving the store untouched. -/
def consumePreparedOrder (preparationHash : String)
    (store : PreparedOrderStore) :
    Option PreparedOrderData × PreparedOrderStore :=
  match store.entries.lookup preparationHash with
  | some orderData =>
      (some orderData,
       { store with
          entries := store.entries.filter (fun e => e.1 ≠ preparationHash) })
  | none => (none, store)

/-- Run every `setTimeout` deletion due by clock time `now`: each fired
timer removes its key from the map (`preparedOrders.delete`, line 195);
fired timers are dropped from the pending list. -/
def fireTimers (now : Int) (store : PreparedOrderStore) :
    PreparedOrderStore :=
  { entries := store.entries.filter
      (fun e => ¬ store.timers.any (fun tm => tm.1 = e.1 ∧ tm.2 ≤ now)),
    timers := store.timers.filter (fun tm => now < tm.2) }

/-! ## Secrets and hash-lock construction

`src/1inch_fusion_order/createOrder.ts` lines 455-465.  The helpers
`HashLock.forSingleFill`, `HashLock.getMerkleLeaves`,
`HashLock.forMultipleFills` and `HashLock.hashSecret` come from the
external `@1inch/cross-chain-sdk`; their behavior is modelled from the
spec (§4.2): `forSingleFill(secret)` commits to the hash of the one
secret, `getMerkleLeaves` maps the secrets to their hashes preserving
order, and `forMultipleFills` commits to the Merkle root determined by
that ordered leaf list.  `hashSecret` itself is a parameter.  The Merkle
root is represented by the ordered leaf list it commits to (the tree is
determined by its leaves). -/

/-- A hash lock: either a single-fill commitment to one secret hash, or
a Merkle-root commitment over an ordered list of leaves. -/
inductive HashLockVal where
  | singleFill (secretHash : String)
  | merkleRoot (leaves : List String)
deriving Repr, DecidableEq

/-- Modelled from the spec: `HashLock.forSingleFill` of the external
SDK — "If N = 1: hash-lock is `SingleFill(hash(secret))`" (§4.2). -/
def forSingleFill (hashSecret : String → String) (secret : String) :
    HashLockVal :=
  .singleFill (hashSecret secret)

/-- Modelled from the spec: `HashLock.getMerkleLeaves` of the external
SDK — order-preserving leaves over the secret hashes, "`secretHashes[i]`
must correspond to `secrets[i]` and to escrow fill index `i`" (§4.2). -/
def getMerkleLeaves (hashSecret : String → String)
    (secrets : List String) : List String :=
  secrets.map hashSecret

/-- Modelled from the spec: `HashLock.forMultipleFills` of the external
SDK — "compute a Merkle tree over the N secret hashes (order-preserving
leaves) and set hash-lock to the Merkle root" (§4.2). -/
def forMultipleFills (leaves : List String) : HashLockVal :=
  .merkleRoot leaves

/-- Lower-case hex digit of a nibble. -/
def hexDigit (n : Nat) : Char :=
  if n < 10 then Char.ofNat (48 + n) else Char.ofNat (87 + n % 16)

/-- `Buffer.toString("hex")`: two lower-case hex digits per byte. -/
def bytesToHex : List Nat → String
  | [] => ""
  | b :: rest =>
      String.singleton (hexDigit (b / 16 % 16)) ++
      String.singleton (hexDigit (b % 16)) ++ bytesToHex rest

/-- The secret generation of `createFusionOrder`, lines 456-458:
`Array.from({length: n}).map(() => "0x" +
randomBytes(32).toString("hex"))`.  `randBytes i` models the byte string
returned by the `i`-th `randomBytes(32)` draw. -/
def generateSecrets (randBytes : Nat → List Nat) (n : Nat) : List String :=
  (List.range n).map fun i => "0x" ++ bytesToHex (randBytes i)

/-- Lines 460-463: dispatch on the number of secrets. -/
def buildHashLock (hashSecret : String → String)
    (secrets : List String) : HashLockVal :=
  if secrets.length = 1 then forSingleFill hashSecret (secrets.headD "")
  else forMultipleFills (getMerkleLeaves hashSecret secrets)

/-- Line 465: `secrets.map((s) => HashLock.hashSecret(s))`. -/
def buildSecretHashes (hashSecret : String → String)
    (secrets : List String) : List String :=
  secrets.map hashSecret

/-! ## Order creation (`createFusionOrder`) with upstream event trace

`src/1inch_fusion_order/createOrder.ts` lines 363-509.  Calls into the
upstream 1inch network (`sdk.getQuote`, `sdk.createOrder`,
`sdk.submitOrder`) are modelled through an environment of fallible
functions, and every call actually made is recorded in an event trace so
that temporal claims about *when* the network is contacted can be
stated.  A thrown JS exception is an `Except.error`. -/

/-- One call to the upstream network. -/
inductive UpstreamEvent where
  /-- `sdk.getQuote` (line 451). -/
  | quoteFetch
  /-- `sdk.createOrder` (line 468), with the hash lock and secret hashes
  passed to it. -/
  | orderCreate (hashLock : HashLockVal) (secretHashes : List String)
  /-- `sdk.submitOrder` (line 482): the constructed order is handed to
  the upstream network. -/
  | orderSubmit (srcChainId : Int) (secretHashes : List String)
  /-- `sdk.submitSecret` in the monitor (line 553). -/
  | secretReveal (idx : Nat) (secret : Option String)
  /-- `getOrderStatus` (lines 516, 559, 573). -/
  | statusFetch
deriving Repr, DecidableEq

/-- The fields of the upstream quote the code reads:
`quote.srcTokenAmount/dstTokenAmount/quoteId` (responses),
`quote.presets[PresetEnum.fast].secretsCount` (line 457) and
`quote.srcChainId` (line 483). -/
structure Quote where
  srcTokenAmount : String
  dstTokenAmount : String
  quoteId : String
  srcChainId : Int
  secretsCount : Nat
deriving Repr, DecidableEq

/-- The destructured result of `sdk.createOrder` (line 468):
`{hash, quoteId, order}`. -/
structure CreatedOrder where
  hash : String
  quoteId : String
  order : String
deriving Repr, DecidableEq

/-- The upstream 1inch SDK and crypto primitives `createFusionOrder`
depends on (all external to the repository). -/
structure FusionEnv where
  /-- `sdk.getQuote`. -/
  getQuote : OrderParams → Except String Quote
  /-- `sdk.createOrder`. -/
  createOrder : Quote → HashLockVal → List String → Except String CreatedOrder
  /-- `sdk.submitOrder` (srcChainId, order, quoteId, secretHashes). -/
  submitOrder : Int → String → String → List String → Except String Unit
  /-- `HashLock.hashSecret`. -/
  hashSecret : String → String
  /-- `randomBytes(32)`: the byte string of the `i`-th draw. -/
  randBytes : Nat → List Nat

/-- `DEFAULT_TOKENS[chainId].USDC` (lines 199-220): the per-chain USDC
address used when a token address is omitted (`getDefaultTokenForChain`
is always called with the default token type `"USDC"`). -/
def defaultUSDC (chainId : Int) : Option String :=
  if chainId = 1 then some "0xA0b86991c6218b36c1d19D4a2e9Eb0cE3606eB48"
  else if chainId = 8453 then some "0x833589fCD6eDb6E08f4c7C32D4f71b54bdA02913"
  else if chainId = 43114 then some "0xB97EF9Ef8734C71904D8002F8b6Bc66Dd9c48a6E"
  else if chainId = 56 then some "0x8AC76a51cc950d9822D68b83fE1Ad97B32Cd580d"
  else none

/-- Token resolution, lines 407-427: a falsy (`undefined` or empty)
provided address falls back to the chain's default USDC. -/
def resolveToken (provided : Option String) (chainId : Int) : Option String :=
  match provided with
  | some s => if s = "" then defaultUSDC chainId else some s
  | none => defaultUSDC chainId

/-- `approvalInfo` in `createFusionOrder`'s return value
(lines 497-501). -/
structure ApprovalInfo where
  tokenAddress : String
  spenderAddress : String
  amount : String
deriving Repr, DecidableEq

/-- The value returned by `createFusionOrder` (lines 490-502).  Note:
there is no `order` and no `quoteId` field — `src/apis/swap.ts` reads
`orderResult.order` and `orderResult.quoteId`, which are `undefined`. -/
structure FusionResult where
  hash : String
  secrets : List String
  secretHashes : List String
  quote : Quote
  status : String
  approvalInfo : ApprovalInfo
deriving Repr, DecidableEq

/-- `createFusionOrder` from `src/1inch_fusion_order/createOrder.ts`
lines 363-509, with its trace of upstream calls.  The
`userWalletAddress` argument (and the `useUserWallet` property some
callers pass) is never read by the function body, so it is omitted;
validation and token resolution happen before any upstream call, and a
successful run performs quote fetch, order creation and — still inside
`createFusionOrder` — order submission (lines 480-488). -/
def createFusionOrder (env : FusionEnv) (args : OrderParams) :
    Except String FusionResult × List UpstreamEvent :=
  if args.srcChainId = 0 ∨ args.dstChainId = 0 then
    (.error "Failed to create fusion order: Source and destination chain IDs are required", [])
  else if args.srcChainId = args.dstChainId then
    (.error "Failed to create fusion order: Source and destination chain IDs must be different for cross-chain swaps", [])
  else
    match resolveToken args.srcTokenAddress args.srcChainId with
    | none => (.error "Failed to create fusion order: Source token address is required. No default token available.", [])
    | some finalSrcToken =>
      match resolveToken args.dstTokenAddress args.dstChainId with
      | none => (.error "Failed to create fusion order: Destination token address is required. No default token available.", [])
      | some finalDstToken =>
        match env.getQuote { args with
            srcTokenAddress := some finalSrcToken,
            dstTokenAddress := some finalDstToken } with
        | .error e => (.error ("Failed to create fusion order: " ++ e), [.quoteFetch])
        | .ok quote =>
          let secrets := generateSecrets env.randBytes quote.secretsCount
          let hashLock := buildHashLock env.hashSecret secrets
          let secretHashes := buildSecretHashes env.hashSecret secrets
          match env.createOrder quote hashLock secretHashes with
          | .error e =>
              (.error ("Failed to create fusion order: " ++ e),
               [.quoteFetch, .orderCreate hashLock secretHashes])
          | .ok created =>
              match env.submitOrder quote.srcChainId created.order
                  created.quoteId secretHashes with
              | .error e =>
                  (.error ("Failed to create fusion order: " ++ e),
                   [.quoteFetch, .orderCreate hashLock secretHashes,
                    .orderSubmit quote.srcChainId secretHashes])
              | .ok _ =>
                  (.ok { hash := created.hash, secrets, secretHashes, quote,
                         status := "submitted",
                         approvalInfo :=
                           { tokenAddress := finalSrcToken,
                             spenderAddress := "0x111111125421ca6dc452d289314280a0f8842a65",
                             amount := args.amount } },
                   [.quoteFetch, .orderCreate hashLock secretHashes,
                    .orderSubmit quote.srcChainId secretHashes])

/-! ## HTTP handlers of the non-custodial flow (`src/apis/swap.ts`) -/

/-- The environment of the swap API handlers: the fusion path plus the
external crypto/validation primitives of `src/lib/auth-utils.ts`, and
the order-submission gateway the submit handler imports. -/
structure SwapApiEnv where
  fusion : FusionEnv
  /-- `crypto.createHash("sha256")....digest("hex")` (external). -/
  sha256 : String → String
  /-- `ethers.isAddress` (external). -/
  isAddress : String → Bool
  /-- `ethers.verifyMessage` (external): address recovery, `none` when
  it throws. -/
  recover : String → String → Option String
  /-- Modelled from the spec: `submitPreparedOrder`, which
  `src/apis/swap.ts` imports from `../1inch_fusion_order/createOrder`,
  is not defined anywhere in the repository's source; §4.5
  (OrderSubmissionGateway) — submits the constructed order (order,
  quoteId, srcChainId, secretHashes) to the upstream network, returning
  `{status: "submitted"}` on success and a `SubmissionError` otherwise.
  -/
  submitPrepared : Option String → Option String → Int → List String →
    Except String String

/-- The body of a `POST /prepare-order` request (lines 27-34); a missing
string field is the empty string, a missing chain id is `0`. -/
structure PrepareRequest where
  userWalletAddress : String
  amount : String
  srcToken : Option String := none
  dstToken : Option String := none
  srcChainId : Int
  dstChainId : Int
deriving Repr, DecidableEq

/-- The JSON replies of the two handlers: HTTP status, `success`, the
`error` string of failure replies, and the response fields the claims
mention. -/
structure ApiResponse where
  status : Nat
  success : Bool
  error : Option String := none
  preparationHash : Option String := none
  orderHash : Option String := none
  messageToSign : Option String := none
deriving Repr, DecidableEq

/-- The `prepare-order` handler, `src/apis/swap.ts` lines 26-147,
executed at clock time `now` (= the handler's `Date.now()`) with the
`generateNonce()` draw `nonce`.  Field validation first; then
`createFusionOrder` (its thrown error becomes the 500 reply and leaves
the store untouched); then message, preparation hash, and
`storePreparedOrder`.  `orderResult.order` and `orderResult.quoteId` do
not exist on `createFusionOrder`'s result, so `preparationData.order`
and `.quoteId` are stored absent. -/
def prepareOrder (env : SwapApiEnv) (nonce : String) (now : Int)
    (req : PrepareRequest) (store : PreparedOrderStore) :
    ApiResponse × PreparedOrderStore × List UpstreamEvent :=
  if req.userWalletAddress = "" ∨ ¬ env.isAddress req.userWalletAddress then
    ({ status := 400, success := false,
       error := some "Valid user wallet address is required" }, store, [])
  else if req.amount = "" ∨ req.srcChainId = 0 ∨ req.dstChainId = 0 then
    ({ status := 400, success := false,
       error := some "Amount, source chain ID, and destination chain ID are required" },
     store, [])
  else
    let orderParams : OrderParams :=
      { amount := req.amount, srcChainId := req.srcChainId,
        dstChainId := req.dstChainId, srcTokenAddress := req.srcToken,
        dstTokenAddress := req.dstToken }
    match createFusionOrder env.fusion orderParams with
    | (.error e, events) =>
        ({ status := 500, success := false, error := some e }, store, events)
    | (.ok orderResult, events) =>
        let messageToSign :=
          generateSwapMessage req.userWalletAddress orderParams now nonce
        let preparationHash :=
          createOrderPreparationHash env.sha256 req.userWalletAddress
            orderParams now nonce
        let store' := storePreparedOrder preparationHash
          { orderHash := orderResult.hash,
            userWalletAddress := req.userWalletAddress,
            preparationData :=
              { order := none, quoteId := none,
                secrets := orderResult.secrets,
                secretHashes := orderResult.secretHashes,
                srcChainId := orderParams.srcChainId,
                amount := orderParams.amount,
                srcTokenAddress := orderParams.srcTokenAddress,
                dstTokenAddress := orderParams.dstTokenAddress,
                dstChainId := orderParams.dstChainId },
            timestamp := now, nonce := nonce } now store
        ({ status := 200, success := true,
           preparationHash := some preparationHash,
           orderHash := some orderResult.hash,
           messageToSign := some messageToSign }, store', events)

/-- The body of a `POST /submit-signed-order` request (lines 151-157). -/
structure SubmitRequest where
  preparationHash : String
  userWalletAddress : String
  signature : String
  timestamp : Int
  nonce : String
deriving Repr, DecidableEq

/-- The `submit-signed-order` handler, `src/apis/swap.ts` lines 150-258,
executed at clock time `now`.  Field-presence check; then
`consumePreparedOrder` (destructive); then wallet match, timestamp
validation and signature verification — each failure replies with an
error but keeps the store state left by the consumption; finally the
(spec-modelled) `submitPreparedOrder` gateway call. -/
def submitSignedOrder (env : SwapApiEnv) (now : Int) (req : SubmitRequest)
    (store : PreparedOrderStore) :
    ApiResponse × PreparedOrderStore × List UpstreamEvent :=
  if req.preparationHash = "" ∨ req.userWalletAddress = "" ∨
     req.signature = "" ∨ req.timestamp = 0 ∨ req.nonce = "" then
    ({ status := 400, success := false,
       error := some "All fields are required: preparationHash, userWalletAddress, signature, timestamp, nonce" },
     store, [])
  else
    match consumePreparedOrder req.preparationHash store with
    | (none, store') =>
        ({ status := 404, success := false,
           error := some "Prepared order not found or expired" }, store', [])
    | (some preparedOrder, store') =>
        if jsToLower preparedOrder.userWalletAddress ≠
           jsToLower req.userWalletAddress then
          ({ status := 403, success := false,
             error := some "User wallet address mismatch" }, store', [])
        else if ¬ validateTimestamp now req.timestamp then
          ({ status := 400, success := false,
             error := some "Invalid or expired timestamp" }, store', [])
        else
          let pd := preparedOrder.preparationData
          let orderParams : OrderParams :=
            { amount := pd.amount, srcChainId := pd.srcChainId,
              dstChainId := pd.dstChainId,
              srcTokenAddress := pd.srcTokenAddress,
              dstTokenAddress := pd.dstTokenAddress }
          let expectedMessage :=
            generateSwapMessage req.userWalletAddress orderParams
              req.timestamp req.nonce
          if ¬ verifyUserSignature env.recover expectedMessage
              req.signature req.userWalletAddress then
            ({ status := 403, success := false,
               error := some "Invalid signature" }, store', [])
          else
            match env.submitPrepared pd.order pd.quoteId pd.srcChainId
                pd.secretHashes with
            | .error e =>
                ({ status := 500, success := false, error := some e },
                 store', [.orderSubmit pd.srcChainId pd.secretHashes])
            | .ok _ =>
                ({ status := 200, success := true,
                   orderHash := some preparedOrder.orderHash }, store',
                 [.orderSubmit pd.srcChainId pd.secretHashes])

/-! ## Completion monitor (`monitorOrderStatus`)

`src/1inch_fusion_order/createOrder.ts` lines 540-582.  The upstream is
modelled by two call-indexed response functions; the unbounded `while`
loop becomes fuel-indexed recursion (`none` = fuel exhausted while still
polling).  Iteration `k` makes the `k`-th ready-fills call, reveals
`secrets[idx]` for each returned index, then makes the `k`-th status
call; on a terminal status it leaves the loop and the final
`getOrderStatus` (line 573) is status call `k + 1`. -/

/-- The upstream endpoints the monitor polls. -/
structure MonitorEnv where
  /-- `sdk.getReadyToAcceptSecretFills`: fill indices of the `k`-th
  call. -/
  readyFills : Nat → List Nat
  /-- `getOrderStatus().status` of the `k`-th status call. -/
  status : Nat → String

/-- The loop exit test, lines 562-566. -/
def isTerminalStatus (s : String) : Bool :=
  s == "executed" || s == "expired" || s == "refunded"

/-- The `while (true)` loop of `monitorOrderStatus`, with the revealed
secrets accumulated as `(idx, secrets[idx])` pairs in reveal order. -/
def monitorGo (env : MonitorEnv) (secrets : List String) :
    Nat → Nat → List (Nat × Option String) →
    Option (String × List (Nat × Option String))
  | 0, _, _ => none
  | fuel + 1, k, acc =>
    let reveals := (env.readyFills k).map fun idx => (idx, secrets.get? idx)
    let acc' := acc ++ reveals
    if isTerminalStatus (env.status k) then some (env.status (k + 1), acc')
    else monitorGo env secrets fuel (k + 1) acc'

/-- `monitorOrderStatus` from `src/1inch_fusion_order/createOrder.ts`
lines 540-582: returns the final status response together with every
secret revealed, or `none` if the order never reached a terminal status
within `fuel` poll iterations. -/
def monitorOrderStatus (env : MonitorEnv) (secrets : List String)
    (fuel : Nat) : Option (String × List (Nat × Option String)) :=
  monitorGo env secrets fuel 0 []

/-! ## Helper lemmas -/

/-- A lookup misses when no entry of the list carries the key. -/
theorem lookup_eq_none_of_keys_ne {β : Type} (l : List (String × β))
    (h : String) (hall : ∀ e ∈ l, e.1 ≠ h) : l.lookup h = none := by
  induction l with
  | nil => rfl
  | cons a t ih =>
      have ha : a.1 ≠ h := hall a (by simp)
      have : (h == a.1) = false := by
        simp [beq_eq_false_iff_ne]
        exact fun he => ha he.symm
      obtain ⟨k, v⟩ := a
      rw [List.lookup_cons]
      simp only at this
      rw [this]
      exact ih fun e he => hall e (by simp [he])

/-- Filtering on "key differs from `h`" leaves no entry with key `h`. -/
theorem lookup_filter_ne_self {β : Type} (l : List (String × β))
    (h : String) :
    (l.filter fun e => e.1 ≠ h).lookup h = none := by
  refine lookup_eq_none_of_keys_ne _ _ fun e he => ?_
  have := (List.mem_filter.mp he).2
  simpa using this

/-! ## Claims -/

/-- **C4.** `validateTimestamp(t)` is true iff
`now - 10min < t ≤ now + 1min`; concretely `now - 11min` is rejected,
`now - 5min` accepted, `now + 2min` rejected. -/
theorem c4_validateTimestamp_window :
    ∀ now t : Int,
      (validateTimestamp now t = true ↔
        now - 10 * 60 * 1000 < t ∧ t ≤ now + 60 * 1000) ∧
      validateTimestamp now (now - 11 * 60 * 1000) = false ∧
      validateTimestamp now (now - 5 * 60 * 1000) = true ∧
      validateTimestamp now (now + 2 * 60 * 1000) = false := by
  intro now t
  refine ⟨?_, ?_, ?_, ?_⟩
  all_goals simp [validateTimestamp, maxAge]
  all_goals omega

/-- **C5.** `consumePreparedOrder` returns exactly the stored record
(removing it) when present and `null` when absent, leaves the store
unchanged on a miss, and a second consumption of the same hash — or a
consumption of a never-stored hash — misses: at most one consume per
stored hash succeeds. -/
theorem c5_consume_at_most_once (store : PreparedOrderStore) (h : String) :
    (consumePreparedOrder h store).1 = store.entries.lookup h ∧
    ((consumePreparedOrder h store).2).entries.lookup h = none ∧
    (consumePreparedOrder h ((consumePreparedOrder h store).2)).1 = none ∧
    (store.entries.lookup h = none →
      consumePreparedOrder h store = (none, store)) := by
  have key : ∀ s : PreparedOrderStore,
      (consumePreparedOrder h s).1 = s.entries.lookup h := by
    intro s
    unfold consumePreparedOrder
    cases hl : s.entries.lookup h <;> simp
  have mid : ((consumePreparedOrder h store).2).entries.lookup h = none := by
    unfold consumePreparedOrder
    cases hl : store.entries.lookup h with
    | none => simpa using hl
    | some r => simpa using lookup_filter_ne_self store.entries h
  refine ⟨key store, mid, ?_, ?_⟩
  · rw [key ((consumePreparedOrder h store).2)]
    exact mid
  · intro hl
    unfold consumePreparedOrder
    rw [hl]

/-- **C5 witness.** Concrete run: a stored record is returned once and
the second consumption misses. -/
theorem c5_consume_at_most_once_witness :
    (consumePreparedOrder "h1"
      { entries := [("h1",
          { orderHash := "o1", userWalletAddress := "0xW",
            preparationData := {}, timestamp := 5, nonce := "n" })],
        timers := [] }).1 ≠ none ∧
    (consumePreparedOrder "h1"
      ((consumePreparedOrder "h1"
        { entries := [("h1",
            { orderHash := "o1", userWalletAddress := "0xW",
              preparationData := {}, timestamp := 5, nonce := "n" })],
          timers := [] }).2)).1 = none := by
  refine ⟨?_, ?_⟩
  · have := (c5_consume_at_most_once
      { entries := [("h1",
          { orderHash := "o1", userWalletAddress := "0xW",
            preparationData := {}, timestamp := 5, nonce := "n" })],
        timers := [] } "h1").1
    rw [this]
    decide
  · exact (c5_consume_at_most_once
      { entries := [("h1",
          { orderHash := "o1", userWalletAddress := "0xW",
            preparationData := {}, timestamp := 5, nonce := "n" })],
        timers := [] } "h1").2.2.1

/-- **C6.** A record stored at time `T` is unreachable by
`consumePreparedOrder` at any time later than `T + 15min`, once the
scheduled `setTimeout` deletions due by then have fired — regardless of
the rest of the store and of whether it was consumed in between. -/
theorem c6_ttl_eviction (store : PreparedOrderStore) (h : String)
    (r : PreparedOrderData) (T now : Int) (hlate : T + prepTTL < now) :
    (consumePreparedOrder h
      (fireTimers now (storePreparedOrder h r T store))).1 = none := by
  have key : ∀ s : PreparedOrderStore,
      (consumePreparedOrder h s).1 = s.entries.lookup h := by
    intro s
    unfold consumePreparedOrder
    cases hl : s.entries.lookup h <;> simp
  rw [key]
  refine lookup_eq_none_of_keys_ne _ _ fun e he => ?_
  intro hkey
  have hmem := List.mem_filter.mp he
  have hin : e ∈ store.entries.filter (fun x => x.1 ≠ h) ++ [(h, r)] :=
    hmem.1
  have hkept := hmem.2
  -- the timer scheduled by `storePreparedOrder` has fired by `now`
  have hfired : ((storePreparedOrder h r T store).timers.any
      fun tm => tm.1 = e.1 ∧ tm.2 ≤ now) = true := by
    refine List.any_eq_true.mpr ⟨(h, T + prepTTL), ?_, ?_⟩
    · simp [storePreparedOrder]
    · simp [hkey]
      omega
  simp only [fireTimers, storePreparedOrder] at hkept
  simp only [storePreparedOrder] at hfired
  simp [hfired] at hkept
  rcases hkept.2 with hne | hlt
  · exact hne hkey.symm
  · omega

/-- **C6 witness.** Concrete run: a record stored at `T = 1000` is gone
at `now = T + 15min + 1`. -/
theorem c6_ttl_eviction_witness :
    (1000 : Int) + prepTTL < 901001 ∧
    (consumePreparedOrder "h1"
      (fireTimers 901001 (storePreparedOrder "h1"
        { orderHash := "o1", userWalletAddress := "0xW",
          preparationData := {}, timestamp := 1000, nonce := "n" }
        1000 { entries := [], timers := [] }))).1 = none := by
  refine ⟨by norm_num [prepTTL], ?_⟩
  exact c6_ttl_eviction { entries := [], timers := [] } "h1"
    { orderHash := "o1", userWalletAddress := "0xW",
      preparationData := {}, timestamp := 1000, nonce := "n" }
    1000 901001 (by norm_num [prepTTL])

/-- **C2.** The preparation hash does *not* distinguish the contents of
`orderParams`: because `JSON.stringify`'s replacer array filters the
keys of *nested* objects as well, and none of `orderParams`' keys occur
in `["nonce","orderParams","timestamp","userWalletAddress"]`, the
serialized `orderParams` is `{}`.  Two entirely different parameter sets
therefore hash identically (for any hash function over the serialized
string, SHA-256 included), and the string the code hashes differs from
the canonical JSON serialization of the four-field object that the
claim describes. -/
theorem c2_preparation_hash_ignores_orderParams
    (sha256 : String → String) :
    createOrderPreparationHash sha256
        "0x1111111111111111111111111111111111111111"
        { amount := "1000000", srcChainId := 1, dstChainId := 8453 }
        1700000000000 "aabbccdd" =
      createOrderPreparationHash sha256
        "0x1111111111111111111111111111111111111111"
        { amount := "2000000", srcChainId := 56, dstChainId := 43114,
          srcTokenAddress := some "0xdeadbeef" }
        1700000000000 "aabbccdd" ∧
    ({ amount := "1000000", srcChainId := 1, dstChainId := 8453 } :
        OrderParams) ≠
      { amount := "2000000", srcChainId := 56, dstChainId := 43114,
        srcTokenAddress := some "0xdeadbeef" } ∧
    prepDataString "0x1111111111111111111111111111111111111111"
        { amount := "1000000", srcChainId := 1, dstChainId := 8453 }
        1700000000000 "aabbccdd" ≠
      serializeSpecCanonical (prepDataJson
        "0x1111111111111111111111111111111111111111"
        { amount := "1000000", srcChainId := 1, dstChainId := 8453 }
        1700000000000 "aabbccdd") := by
  refine ⟨?_, by decide, by decide⟩
  exact congrArg sha256 (by decide)

/-- **C7.** A prepare request whose `OrderParams` are otherwise valid
but have `srcChainId = dstChainId` fails (the chain-equality validation
inside `createFusionOrder` throws, surfacing as the 500 reply with the
validation message), and the prepared-order store is left exactly as it
was: no `PreparationRecord` is created. -/
theorem c7_same_chain_prepare_rejected (env : SwapApiEnv) (nonce : String)
    (now : Int) (req : PrepareRequest) (store : PreparedOrderStore)
    (hw : req.userWalletAddress ≠ "")
    (haddr : env.isAddress req.userWalletAddress = true)
    (ham : req.amount ≠ "") (hsrc : req.srcChainId ≠ 0)
    (hdst : req.dstChainId ≠ 0)
    (heq : req.srcChainId = req.dstChainId) :
    (prepareOrder env nonce now req store).1.success = false ∧
    (prepareOrder env nonce now req store).1.error =
      some "Failed to create fusion order: Source and destination chain IDs must be different for cross-chain swaps" ∧
    (prepareOrder env nonce now req store).2.1 = store := by
  have hrun : createFusionOrder env.fusion
      { amount := req.amount, srcChainId := req.srcChainId,
        dstChainId := req.dstChainId, srcTokenAddress := req.srcToken,
        dstTokenAddress := req.dstToken } =
      (.error "Failed to create fusion order: Source and destination chain IDs must be different for cross-chain swaps",
       []) := by
    unfold createFusionOrder
    rw [if_neg (by simp [hsrc, hdst]), if_pos heq]
  refine ⟨?_, ?_, ?_⟩ <;>
    · unfold prepareOrder
      rw [if_neg (by simp [hw, haddr]), if_neg (by simp [ham, hsrc, hdst])]
      simp only [hrun]

/-- **C7 witness.** Concrete same-chain request against an arbitrary
concrete environment: rejected, store untouched. -/
theorem c7_same_chain_prepare_rejected_witness :
    (prepareOrder
      { fusion :=
          { getQuote := fun _ => .error "unreached",
            createOrder := fun _ _ _ => .error "unreached",
            submitOrder := fun _ _ _ _ => .error "unreached",
            hashSecret := fun s => s, randBytes := fun _ => [] },
        sha256 := fun s => s, isAddress := fun _ => true,
        recover := fun _ _ => none,
        submitPrepared := fun _ _ _ _ => .error "unreached" }
      "n1" 1000
      { userWalletAddress := "0x1111111111111111111111111111111111111111",
        amount := "1000000", srcChainId := 1, dstChainId := 1 }
      { entries := [], timers := [] }).1.success = false ∧
    (prepareOrder
      { fusion :=
          { getQuote := fun _ => .error "unreached",
            createOrder := fun _ _ _ => .error "unreached",
            submitOrder := fun _ _ _ _ => .error "unreached",
            hashSecret := fun s => s, randBytes := fun _ => [] },
        sha256 := fun s => s, isAddress := fun _ => true,
        recover := fun _ _ => none,
        submitPrepared := fun _ _ _ _ => .error "unreached" }
      "n1" 1000
      { userWalletAddress := "0x1111111111111111111111111111111111111111",
        amount := "1000000", srcChainId := 1, dstChainId := 1 }
      { entries := [], timers := [] }).2.1 =
      { entries := [], timers := [] } := by
  have h := c7_same_chain_prepare_rejected
    { fusion :=
        { getQuote := fun _ => .error "unreached",
          createOrder := fun _ _ _ => .error "unreached",
          submitOrder := fun _ _ _ _ => .error "unreached",
          hashSecret := fun s => s, randBytes := fun _ => [] },
      sha256 := fun s => s, isAddress := fun _ => true,
      recover := fun _ _ => none,
      submitPrepared := fun _ _ _ _ => .error "unreached" }
    "n1" 1000
    { userWalletAddress := "0x1111111111111111111111111111111111111111",
      amount := "1000000", srcChainId := 1, dstChainId := 1 }
    { entries := [], timers := [] }
    (by decide) rfl (by decide) (by decide) (by decide) rfl
  exact ⟨h.1, h.2.2⟩

/-- **C9.** Round-trip of message building, signing and verification:
whenever address recovery on `generateSwapMessage w p t n` and the
signature produced over it yields an address that equals `w` up to
letter case (which is what `ethers.verifyMessage` guarantees for a
signature produced by the wallet `w`), `verifyUserSignature` accepts
with expected wallet `w` — the comparison is case-insensitive. -/
theorem c9_signature_roundtrip
    (recover : String → String → Option String) (sign : String → String)
    (w recovered : String) (p : OrderParams) (t : Int) (n : String)
    (hrec : recover (generateSwapMessage w p t n)
      (sign (generateSwapMessage w p t n)) = some recovered)
    (hcase : jsToLower recovered = jsToLower w) :
    verifyUserSignature recover (generateSwapMessage w p t n)
      (sign (generateSwapMessage w p t n)) w = true := by
  unfold verifyUserSignature
  rw [hrec]
  simp [hcase]

/-- **C9 witness.** Concrete recovery function returning the signer's
address in different letter case: verification still accepts. -/
theorem c9_signature_roundtrip_witness :
    verifyUserSignature (fun _ _ => some "0xABCD")
      (generateSwapMessage "0xabcd"
        { amount := "1", srcChainId := 1, dstChainId := 8453 } 5 "n")
      ((fun _ => "sig")
        (generateSwapMessage "0xabcd"
          { amount := "1", srcChainId := 1, dstChainId := 8453 } 5 "n"))
      "0xabcd" = true :=
  c9_signature_roundtrip (fun _ _ => some "0xABCD") (fun _ => "sig")
    "0xabcd" "0xABCD" { amount := "1", srcChainId := 1, dstChainId := 8453 }
    5 "n" rfl (by decide)

/-- **C10.** In `submit-signed-order` the `PreparationRecord` is
consumed before the wallet-match, timestamp and signature checks: a
request that finds the record but fails any of those checks is rejected
with the record already deleted, the store is not restored, and every
subsequent submit naming the same preparation hash gets "Prepared order
not found or expired". -/
theorem c10_consume_before_checks (env : SwapApiEnv) (now : Int)
    (req : SubmitRequest) (store : PreparedOrderStore)
    (rec : PreparedOrderData)
    (hph : req.preparationHash ≠ "") (hw : req.userWalletAddress ≠ "")
    (hsig : req.signature ≠ "") (hts : req.timestamp ≠ 0)
    (hn : req.nonce ≠ "")
    (hfound : store.entries.lookup req.preparationHash = some rec)
    (hfail :
      jsToLower rec.userWalletAddress ≠ jsToLower req.userWalletAddress ∨
      validateTimestamp now req.timestamp = false ∨
      verifyUserSignature env.recover
        (generateSwapMessage req.userWalletAddress
          { amount := rec.preparationData.amount,
            srcChainId := rec.preparationData.srcChainId,
            dstChainId := rec.preparationData.dstChainId,
            srcTokenAddress := rec.preparationData.srcTokenAddress,
            dstTokenAddress := rec.preparationData.dstTokenAddress }
          req.timestamp req.nonce)
        req.signature req.userWalletAddress = false) :
    (submitSignedOrder env now req store).1.success = false ∧
    ((submitSignedOrder env now req store).2.1).entries.lookup
      req.preparationHash = none ∧
    (∀ env2 now2 req2, req2.preparationHash = req.preparationHash →
      req2.preparationHash ≠ "" → req2.userWalletAddress ≠ "" →
      req2.signature ≠ "" → req2.timestamp ≠ 0 → req2.nonce ≠ "" →
      (submitSignedOrder env2 now2 req2
        ((submitSignedOrder env now req store).2.1)).1 =
        { status := 404, success := false,
          error := some "Prepared order not found or expired" }) := by
  have hconsume : consumePreparedOrder req.preparationHash store =
      (some rec,
       { store with entries :=
          store.entries.filter (fun e => e.1 ≠ req.preparationHash) }) := by
    unfold consumePreparedOrder
    rw [hfound]
  have hrest : ∀ s' : PreparedOrderStore,
      s'.entries.lookup req.preparationHash = none →
      ∀ env2 now2 (req2 : SubmitRequest),
        req2.preparationHash = req.preparationHash →
        req2.preparationHash ≠ "" → req2.userWalletAddress ≠ "" →
        req2.signature ≠ "" → req2.timestamp ≠ 0 → req2.nonce ≠ "" →
        (submitSignedOrder env2 now2 req2 s').1 =
          { status := 404, success := false,
            error := some "Prepared order not found or expired" } := by
    intro s' hnone env2 now2 req2 hph2 h1 h2 h3 h4 h5
    unfold submitSignedOrder
    rw [if_neg (by simp [h1, h2, h3, h4, h5])]
    have : consumePreparedOrder req2.preparationHash s' = (none, s') := by
      unfold consumePreparedOrder
      rw [hph2, hnone]
    rw [this]
  have hlook : ∀ st : PreparedOrderStore,
      (st.entries.filter
        (fun e => e.1 ≠ req.preparationHash)).lookup req.preparationHash
        = none := fun st => lookup_filter_ne_self st.entries _
  unfold submitSignedOrder
  rw [if_neg (by simp [hph, hw, hsig, hts, hn])]
  simp only [hconsume]
  rcases hfail with hmis | hts' | hsig'
  · rw [if_pos hmis]
    exact ⟨rfl, hlook store, hrest _ (hlook store)⟩
  · by_cases hmis : jsToLower rec.userWalletAddress ≠
        jsToLower req.userWalletAddress
    · rw [if_pos hmis]
      exact ⟨rfl, hlook store, hrest _ (hlook store)⟩
    · rw [if_neg hmis, if_pos (by simp [hts'])]
      exact ⟨rfl, hlook store, hrest _ (hlook store)⟩
  · by_cases hmis : jsToLower rec.userWalletAddress ≠
        jsToLower req.userWalletAddress
    · rw [if_pos hmis]
      exact ⟨rfl, hlook store, hrest _ (hlook store)⟩
    · rw [if_neg hmis]
      by_cases hts2 : validateTimestamp now req.timestamp = false
      · rw [if_pos (by simp [hts2])]
        exact ⟨rfl, hlook store, hrest _ (hlook store)⟩
      · rw [if_neg (by simpa using hts2), if_pos (by simp [hsig'])]
        exact ⟨rfl, hlook store, hrest _ (hlook store)⟩

/-- A stored record for the C10 witness. -/
def recC10 : PreparedOrderData :=
  { orderHash := "o1", userWalletAddress := "0xAAAA",
    preparationData := {}, timestamp := 5, nonce := "n" }

/-- A one-record store for the C10 witness. -/
def storeC10 : PreparedOrderStore :=
  { entries := [("h1", recC10)], timers := [] }

/-- A submit request whose wallet does not match the stored record. -/
def reqC10 : SubmitRequest :=
  { preparationHash := "h1", userWalletAddress := "0xBBBB",
    signature := "sig", timestamp := 7, nonce := "n" }

/-- A handler environment for the C10 witness. -/
def envC10 : SwapApiEnv :=
  { fusion :=
      { getQuote := fun _ => .error "unreached",
        createOrder := fun _ _ _ => .error "unreached",
        submitOrder := fun _ _ _ _ => .error "unreached",
        hashSecret := fun s => s, randBytes := fun _ => [] },
    sha256 := fun s => s, isAddress := fun _ => true,
    recover := fun _ _ => none,
    submitPrepared := fun _ _ _ _ => .ok "submitted" }

/-- **C10 witness.** A concrete submit that finds the record but fails
the wallet-match check: rejected, and the record is gone. -/
theorem c10_consume_before_checks_witness :
    (submitSignedOrder envC10 7 reqC10 storeC10).1.success = false ∧
    ((submitSignedOrder envC10 7 reqC10 storeC10).2.1).entries.lookup
      reqC10.preparationHash = none := by
  have h := c10_consume_before_checks envC10 7 reqC10 storeC10 recC10
    (by decide) (by decide) (by decide) (by decide) (by decide) rfl
    (Or.inl (by decide))
  exact ⟨h.1, h.2.1⟩

/-- Discriminator for order-submission events. -/
def isOrderSubmit : UpstreamEvent → Bool
  | .orderSubmit _ _ => true
  | _ => false

/-- A concrete upstream environment for exercising the prepare
handler: the quote, order-creation and submission calls all succeed. -/
def happyEnv : SwapApiEnv :=
  { fusion :=
      { getQuote := fun _ => .ok
          { srcTokenAmount := "1000000", dstTokenAmount := "998000",
            quoteId := "q1", srcChainId := 1, secretsCount := 1 },
        createOrder := fun _ _ _ => .ok
          { hash := "0xorderhash", quoteId := "q1", order := "orderblob" },
        submitOrder := fun _ _ _ _ => .ok (),
        hashSecret := fun s => "H(" ++ s ++ ")",
        randBytes := fun _ => List.replicate 32 0 },
    sha256 := fun s => s,
    isAddress := fun _ => true,
    recover := fun _ _ => none,
    submitPrepared := fun _ _ _ _ => .ok "submitted" }

/-- **C1.** The claim that the upstream network only sees the order in
phase 2 is false on the code: a successful run of the `prepare-order`
handler already submits the order upstream, because `createFusionOrder`
(lines 480-488 of `src/1inch_fusion_order/createOrder.ts`)
unconditionally calls `sdk.submitOrder` and the handler calls it during
the prepare phase.  On a concrete valid prepare request the handler
succeeds (HTTP 200, "Order prepared. Please sign...") with an
`orderSubmit` event in its upstream trace — before any signature exists
and without touching a `PreparationRecord`'s consumption. -/
theorem c1_prepare_phase_submits_order :
    (prepareOrder happyEnv "aabbccdd" 1700000000000
      { userWalletAddress := "0x1111111111111111111111111111111111111111",
        amount := "1000000", srcChainId := 1, dstChainId := 8453 }
      { entries := [], timers := [] }).1.success = true ∧
    ((prepareOrder happyEnv "aabbccdd" 1700000000000
      { userWalletAddress := "0x1111111111111111111111111111111111111111",
        amount := "1000000", srcChainId := 1, dstChainId := 8453 }
      { entries := [], timers := [] }).2.2).any isOrderSubmit = true := by
  constructor
  · rfl
  · rfl

/-- Two hex digits per byte. -/
theorem bytesToHex_length (bs : List Nat) :
    (bytesToHex bs).length = 2 * bs.length := by
  induction bs with
  | nil => rfl
  | cons b rest ih =>
      simp [bytesToHex, String.length_append, String.length_singleton, ih]
      omega

/-- `generateSecrets` produces one secret per index. -/
theorem generateSecrets_length (rb : Nat → List Nat) (n : Nat) :
    (generateSecrets rb n).length = n := by
  simp [generateSecrets]

/-- The `i`-th generated secret is the hex encoding of the `i`-th
random draw. -/
theorem generateSecrets_getD (rb : Nat → List Nat) (n i : Nat)
    (h : i < n) :
    (generateSecrets rb n).getD i "" = "0x" ++ bytesToHex (rb i) := by
  unfold generateSecrets
  rw [List.getD_eq_getElem?_getD, List.getElem?_map,
    List.getElem?_range h]
  rfl

/-- Mapping preserves indexed access (below the length). -/
theorem getD_map_str (f : String → String) (l : List String) (i : Nat)
    (h : i < l.length) :
    (l.map f).getD i "" = f (l.getD i "") := by
  rw [List.getD_eq_getElem?_getD, List.getD_eq_getElem?_getD,
    List.getElem?_map, List.getElem?_eq_getElem h]
  rfl

/-- **C3.** On every successful run of the order-creation path whose
quote requires `N ≥ 1` secrets: exactly `N` secrets are generated, each
the `0x`-prefixed hex of one 32-byte random draw (66 characters when
the draws are 32 bytes); the hash lock handed to `sdk.createOrder` is
`SingleFill` built from the single secret when `N = 1` and a Merkle
root over the `N` order-preserving secret-hash leaves when `N > 1`; and
`secretHashes[i] = hash(secrets[i])` for every `i < N`. -/
theorem c3_hashlock_construction (env : FusionEnv) (args : OrderParams)
    (r : FusionResult) (evs : List UpstreamEvent) (N : Nat)
    (hrun : createFusionOrder env args = (.ok r, evs))
    (_hN : 1 ≤ N) (hcount : r.quote.secretsCount = N) :
    r.secrets.length = N ∧
    (∀ i, i < N → r.secrets.getD i "" = "0x" ++ bytesToHex (env.randBytes i)) ∧
    ((∀ i, (env.randBytes i).length = 32) →
      ∀ s ∈ r.secrets, s.length = 66) ∧
    evs = [.quoteFetch,
           .orderCreate (buildHashLock env.hashSecret r.secrets) r.secretHashes,
           .orderSubmit r.quote.srcChainId r.secretHashes] ∧
    (N = 1 → buildHashLock env.hashSecret r.secrets =
      .singleFill (env.hashSecret (r.secrets.headD ""))) ∧
    (1 < N → buildHashLock env.hashSecret r.secrets =
      .merkleRoot (r.secrets.map env.hashSecret) ∧
      (r.secrets.map env.hashSecret).length = N) ∧
    r.secretHashes = r.secrets.map env.hashSecret ∧
    (∀ i, i < N →
      r.secretHashes.getD i "" = env.hashSecret (r.secrets.getD i "")) := by
  have hfields : r.secrets = generateSecrets env.randBytes r.quote.secretsCount ∧
      r.secretHashes = r.secrets.map env.hashSecret ∧
      evs = [.quoteFetch,
             .orderCreate (buildHashLock env.hashSecret r.secrets)
               r.secretHashes,
             .orderSubmit r.quote.srcChainId r.secretHashes] := by
    unfold createFusionOrder at hrun
    split at hrun
    · simp at hrun
    · split at hrun
      · simp at hrun
      · split at hrun
        · simp at hrun
        · split at hrun
          · simp at hrun
          · split at hrun
            · simp at hrun
            · dsimp only at hrun
              split at hrun
              · simp at hrun
              · split at hrun
                · simp at hrun
                · simp only [Prod.mk.injEq, Except.ok.injEq] at hrun
                  obtain ⟨hr, he⟩ := hrun
                  subst hr
                  subst he
                  exact ⟨rfl, rfl, rfl⟩
  obtain ⟨hsec, hsh, hev⟩ := hfields
  rw [hcount] at hsec
  have hlen : r.secrets.length = N := by
    rw [hsec]; exact generateSecrets_length _ _
  refine ⟨hlen, ?_, ?_, hev, ?_, ?_, hsh, ?_⟩
  · intro i hi
    rw [hsec]; exact generateSecrets_getD _ _ _ hi
  · intro h32 s hs
    rw [hsec] at hs
    obtain ⟨i, hi, rfl⟩ : ∃ i, i ∈ List.range N ∧
        ("0x" ++ bytesToHex (env.randBytes i)) = s := by
      simpa [generateSecrets, List.mem_map] using hs
    rw [String.length_append, bytesToHex_length, h32 i]
    decide
  · intro h1
    unfold buildHashLock
    rw [if_pos (by rw [hlen, h1])]
    rfl
  · intro h1
    unfold buildHashLock
    rw [if_neg (by omega)]
    exact ⟨rfl, by rw [List.length_map, hlen]⟩
  · intro i hi
    rw [hsh]
    exact getD_map_str _ _ _ (by omega)

/-- Concrete upstream environment for the C3 witness: the quote asks
for 3 secrets and every upstream call succeeds. -/
def merkleEnv : FusionEnv :=
  { getQuote := fun _ => .ok
      { srcTokenAmount := "1", dstTokenAmount := "1",
        quoteId := "q", srcChainId := 1, secretsCount := 3 },
    createOrder := fun _ _ _ => .ok
      { hash := "h", quoteId := "q", order := "o" },
    submitOrder := fun _ _ _ _ => .ok (),
    hashSecret := fun s => "H(" ++ s ++ ")",
    randBytes := fun _ => List.replicate 32 7 }

/-- **C3 witness.** Concrete successful run with a 3-secret quote:
three secrets are generated and the hash lock is a Merkle root over the
3 order-preserving leaves. -/
theorem c3_hashlock_construction_witness :
    ∃ r evs,
      createFusionOrder merkleEnv
        { amount := "1000000", srcChainId := 1, dstChainId := 8453 } =
        (.ok r, evs) ∧
      r.secrets.length = 3 ∧
      buildHashLock merkleEnv.hashSecret r.secrets =
        .merkleRoot (r.secrets.map merkleEnv.hashSecret) := by
  obtain ⟨r, evs, hrun⟩ :
      ∃ r evs, createFusionOrder merkleEnv
        { amount := "1000000", srcChainId := 1, dstChainId := 8453 } =
        (.ok r, evs) := ⟨_, _, rfl⟩
  have hq : r.quote.secretsCount = 3 := by
    have h1 : (createFusionOrder merkleEnv
        { amount := "1000000", srcChainId := 1, dstChainId := 8453 }).1 =
        .ok r := by rw [hrun]
    have h2 : ((createFusionOrder merkleEnv
        { amount := "1000000", srcChainId := 1, dstChainId := 8453 }).1).map
        (fun x => x.quote.secretsCount) = .ok 3 := rfl
    rw [h1] at h2
    simpa [Except.map] using h2
  have h := c3_hashlock_construction merkleEnv _ r evs 3 hrun (by omega) hq
  exact ⟨r, evs, hrun, h.1, (h.2.2.2.2.2.1 (by omega)).1⟩

/-- Unrolling the monitor loop from iteration `k0`: if the first
terminal status call is the `d`-th one from `k0`, the loop returns the
status of the following (final) status call together with every reveal
of iterations `k0 .. k0 + d`. -/
theorem monitorGo_reach (env : MonitorEnv) (secrets : List String) :
    ∀ (d k0 fuel : Nat) (acc : List (Nat × Option String)),
      d < fuel →
      (∀ j, j < d → isTerminalStatus (env.status (k0 + j)) = false) →
      isTerminalStatus (env.status (k0 + d)) = true →
      monitorGo env secrets fuel k0 acc =
        some (env.status (k0 + d + 1),
          acc ++ ((List.range (d + 1)).map
            (fun j => (env.readyFills (k0 + j)).map
              fun idx => (idx, secrets.get? idx))).flatten) := by
  intro d
  induction d with
  | zero =>
      intro k0 fuel acc hfuel hmin hterm
      match fuel, hfuel with
      | fuel + 1, _ =>
        unfold monitorGo
        simp only [Nat.add_zero] at hterm
        simp [hterm, List.range_succ]
  | succ d ih =>
      intro k0 fuel acc hfuel hmin hterm
      match fuel, hfuel with
      | fuel + 1, _ =>
        unfold monitorGo
        have h0 : isTerminalStatus (env.status k0) = false := by
          have := hmin 0 (by omega)
          simpa using this
        simp only [h0, Bool.false_eq_true, if_false]
        have hmin' : ∀ j, j < d →
            isTerminalStatus (env.status (k0 + 1 + j)) = false := by
          intro j hj
          have := hmin (j + 1) (by omega)
          simpa [Nat.add_assoc, Nat.add_comm 1 j] using this
        have hterm' : isTerminalStatus (env.status (k0 + 1 + d)) = true := by
          simpa [Nat.add_assoc, Nat.add_comm 1 d] using hterm
        have hlist : (env.readyFills k0).map
              (fun idx => (idx, secrets.get? idx)) ++
            ((List.range (d + 1)).map
              (fun j => (env.readyFills (k0 + 1 + j)).map
                fun idx => (idx, secrets.get? idx))).flatten =
            ((List.range (d + 1 + 1)).map
              (fun j => (env.readyFills (k0 + j)).map
                fun idx => (idx, secrets.get? idx))).flatten := by
          conv_rhs => rw [List.range_succ_eq_map]
          simp only [List.map_cons, List.flatten_cons, List.map_map,
            Nat.add_zero]
          congr 1
          congr 1
          apply List.map_congr_left
          intro j hj
          simp only [Function.comp]
          congr 2
          omega
        rw [ih (k0 + 1) fuel _ (by omega) hmin' hterm',
          List.append_assoc, hlist,
          show k0 + 1 + d + 1 = k0 + (d + 1) + 1 from by omega]

/-- If no status call within the fuel is terminal, the loop is still
polling (it never stops on a non-terminal status). -/
theorem monitorGo_no_terminal (env : MonitorEnv) (secrets : List String) :
    ∀ (fuel k0 : Nat) (acc : List (Nat × Option String)),
      (∀ j, j < fuel → isTerminalStatus (env.status (k0 + j)) = false) →
      monitorGo env secrets fuel k0 acc = none := by
  intro fuel
  induction fuel with
  | zero => intro k0 acc _; rfl
  | succ fuel ih =>
      intro k0 acc hall
      unfold monitorGo
      have h0 : isTerminalStatus (env.status k0) = false := by
        have := hall 0 (by omega)
        simpa using this
      simp only [h0, Bool.false_eq_true, if_false]
      apply ih
      intro j hj
      have := hall (j + 1) (by omega)
      simpa [Nat.add_assoc, Nat.add_comm 1 j] using this

/-- **C8.** The monitor polls by first fetching the ready-to-accept
fills and revealing `secrets[idx]` for each returned index, then
fetching the status; it stops exactly at the first terminal status
(`executed`, `expired`, `refunded`) — returning that status, provided
the upstream keeps reporting it (terminal states do not transition) —
and keeps polling (no result within the fuel) while every status is
non-terminal.  The returned reveal trace is exactly the fills of
iterations `0 .. k`, in order. -/
theorem c8_monitor_stops_at_terminal (env : MonitorEnv)
    (secrets : List String) (fuel k : Nat) (hk : k < fuel)
    (hmin : ∀ j, j < k → isTerminalStatus (env.status j) = false)
    (hterm : isTerminalStatus (env.status k) = true)
    (hpersist : env.status (k + 1) = env.status k) :
    monitorOrderStatus env secrets fuel =
      some (env.status k,
        ((List.range (k + 1)).map
          (fun j => (env.readyFills j).map
            fun idx => (idx, secrets.get? idx))).flatten) ∧
    isTerminalStatus (env.status k) = true ∧
    (∀ fuel2, (∀ j, j < fuel2 →
        isTerminalStatus (env.status j) = false) →
      monitorOrderStatus env secrets fuel2 = none) := by
  refine ⟨?_, hterm, ?_⟩
  · unfold monitorOrderStatus
    have h := monitorGo_reach env secrets k 0 fuel [] hk
      (by simpa using hmin) (by simpa using hterm)
    simpa [hpersist] using h
  · intro fuel2 hall
    unfold monitorOrderStatus
    exact monitorGo_no_terminal env secrets fuel2 0 []
      (by simpa using hall)

/-- The mocked upstream of the claim's scenario: the first
ready-fills call reports fill index 0, later calls report none, and
every status call answers `executed`. -/
def mockMonitorEnv : MonitorEnv :=
  { readyFills := fun k => if k = 0 then [0] else [],
    status := fun _ => "executed" }

/-- **C8 witness.** Against the mocked upstream, `secrets[0]` is
revealed exactly once and the monitor returns `executed`. -/
theorem c8_monitor_stops_at_terminal_witness :
    monitorOrderStatus mockMonitorEnv ["0xsecret0", "0xsecret1"] 3 =
      some ("executed", [(0, some "0xsecret0")]) := by
  have h := c8_monitor_stops_at_terminal mockMonitorEnv
    ["0xsecret0", "0xsecret1"] 3 0 (by omega)
    (fun j hj => absurd hj (by omega)) rfl rfl
  rw [h.1]
  rfl

end StableCenter
